import Mathlib

/-
Shallow embedding of the polarys backend (src/backend) in Lean 4, together
with theorems settling the frozen claims about its specification.

External capabilities (the VADER compound scorer, the ISO-8601 timestamp
parser, the OpenAI classifier/summarizer, the per-outlet scrapers, the HTTP
transport and the SQL engine) are passed in as explicit function parameters;
everything else is translated directly from the Python source.
-/

namespace Polarys

/-! ## utils.py -/

/-- Python regex class `\s` over the ASCII range: space, tab, newline,
carriage return, vertical tab, form feed (also what `str.strip` removes). -/
def isPySpace (c : Char) : Bool :=
  c.toNat == 32 || c.toNat == 9 || c.toNat == 10 || c.toNat == 13 ||
    c.toNat == 11 || c.toNat == 12

/-- One left-to-right pass of `re.sub(r"<[^>]+>", "", text)`.
The first argument buffers (in reverse) the characters of a pending
candidate tag: `some pend` means a `<` was read (with `pend` the reversed
characters read since, including the `<`) and no `>` has arrived yet.
A `>` arriving with at least one character between it and the `<` deletes
the whole `<...>` region, exactly the non-overlapping greedy match of the
regex; a `>` arriving immediately after `<` matches nothing (the regex
needs one or more inner characters), so `<>` is kept; a `<` with no later
`>` is kept verbatim, again because the regex cannot match it. -/
def stripTagsGo : Option (List Char) → List Char → List Char
  | none, [] => []
  | some pend, [] => pend.reverse
  | none, c :: rest =>
    if c = '<' then stripTagsGo (some [c]) rest
    else c :: stripTagsGo none rest
  | some pend, c :: rest =>
    if c = '>' then
      if 2 ≤ pend.length then stripTagsGo none rest
      else pend.reverse ++ c :: stripTagsGo none rest
    else stripTagsGo (some (c :: pend)) rest

/-- Embedding of `re.sub(r"\s+", " ", text)`: collapse every maximal run of
whitespace to a single space.  The flag records whether the previous
character was whitespace. -/
def collapseWsAux : Bool → List Char → List Char
  | _, [] => []
  | prevSpace, c :: rest =>
    if isPySpace c then
      if prevSpace then collapseWsAux true rest
      else ' ' :: collapseWsAux true rest
    else c :: collapseWsAux false rest

/-- Python `str.strip()`: drop leading and trailing whitespace. -/
def pyStrip (l : List Char) : List Char :=
  ((l.dropWhile isPySpace).reverse.dropWhile isPySpace).reverse

/-- utils.strip_html_tags: remove HTML tags, normalise whitespace, strip.
The leading emptiness test embeds Python's `if not text: return text`. -/
def strip_html_tags (s : String) : String :=
  if s = "" then s
  else String.mk (pyStrip (collapseWsAux false (stripTagsGo none s.data)))

/-- Python `str.lower()` (ASCII behaviour, via `Char.toLower`). -/
def pyLower (s : String) : String :=
  String.mk (s.data.map Char.toLower)

/-- Substring test over character lists (the needle occurs contiguously). -/
def isSubstring : List Char → List Char → Bool
  | needle, [] => needle.isEmpty
  | needle, h :: t => needle.isPrefixOf (h :: t) || isSubstring needle t

/-- Python's `needle in hay` on strings. -/
def pyInStr (needle hay : String) : Bool :=
  isSubstring needle.data hay.data

/-! ## config.py -/

/-- One entry of the `OUTLETS` dict; the scraper function is represented by
its name, resolved by a `runScraper` capability at the endpoints. -/
structure Outlet where
  domain : String
  source : String
  bias : String
  scraper : String
deriving DecidableEq, Repr

/-- config.OUTLETS, in Python dict insertion order. -/
def OUTLETS : List Outlet :=
  [ ⟨"cnn.com", "CNN", "left", "fetch_cnn"⟩,
    ⟨"cbsnews.com", "CBS News", "left", "fetch_cbs"⟩,
    ⟨"nbcnews.com", "NBC News", "left", "fetch_nbc"⟩,
    ⟨"abcnews.go.com", "ABC News", "left", "fetch_abc"⟩,
    ⟨"foxnews.com", "Fox News", "right", "fetch_fox"⟩,
    ⟨"breitbart.com", "Breitbart", "right", "fetch_breitbart"⟩,
    ⟨"nypost.com", "NY Post", "right", "fetch_nypost"⟩,
    ⟨"oann.com", "OANN", "right", "fetch_oann"⟩ ]

def MAX_LEFT_ARTICLES : Nat := 20
def MAX_RIGHT_ARTICLES : Nat := 20
def MAX_TOTAL_ARTICLES : Nat := 50
def MIN_CONTENT_LENGTH : Nat := 100

/-! ## sentiment.py -/

/-- sentiment.analyze_sentiment.  The VADER analyzer is external; its
`polarity_scores(...)["compound"]` value is the `compound` parameter
(modelled over the rationals; 0.05 is 5/100).  Python's `(content or "")`
is the identity on strings. -/
def analyze_sentiment (compound : String → Rat) (title content : String) :
    String × Rat :=
  let text_content := title ++ " " ++ content
  let compound_score := compound text_content
  let sentiment_category :=
    if mkRat 5 100 ≤ compound_score then "positive"
    else if compound_score ≤ mkRat (-5) 100 then "negative"
    else "neutral"
  (sentiment_category, compound_score)

/-! ## server.py search pipeline -/

/-- A raw article as returned by the news adapter (`news_results["articles"]`). -/
structure NewsArticle where
  url : String
  title : String
  content : String
  author : String
  publishedAt : String
deriving DecidableEq, Repr

/-- The news adapter's response payload (the `articles` key of its JSON). -/
structure NewsData where
  articles : List NewsArticle
deriving DecidableEq, Repr

/-- A raw Reddit or Bluesky post as returned by its adapter
(`subreddit` is `""` where absent, matching `post.get("subreddit", "")`). -/
structure SocialPost where
  url : String
  title : String
  contents : String
  subreddit : String
deriving DecidableEq, Repr

/-- The dict built for one admitted news article in the `/search` loop. -/
structure NewsOutput where
  source : String
  title : String
  url : String
  contents : String
  bias : String
  sentiment : String
  sentiment_score : Rat
  author : String
  date : Int
deriving DecidableEq, Repr

/-- A social post after the `/search` handler adds bias and sentiment keys. -/
structure SocialOutput where
  post : SocialPost
  bias : String
  sentiment : String
  sentiment_score : Rat
deriving DecidableEq, Repr

/-- One element of the `/search` response's `results` list. -/
inductive ResultItem where
  | news (o : NewsOutput)
  | social (o : SocialOutput)
deriving DecidableEq, Repr

/-- The first outlet whose domain is a substring of the url:
`next((info for domain, info in OUTLETS.items() if domain in article["url"]), None)`. -/
def findOutlet (url : String) : Option Outlet :=
  OUTLETS.find? (fun o => pyInStr o.domain url)

/-- The output dict built for an admitted news article; `toEpoch` is
utils.to_epoch_time (an ISO-8601 parse, external stdlib capability). -/
def mkNewsOutput (compound : String → Rat) (toEpoch : String → Int)
    (a : NewsArticle) (o : Outlet) (clean : String) : NewsOutput :=
  let s := analyze_sentiment compound a.title clean
  { source := o.source, title := a.title, url := a.url, contents := clean,
    bias := o.bias, sentiment := s.1, sentiment_score := s.2,
    author := a.author, date := toEpoch a.publishedAt }

/-- The `for article in results` admission loop of `/search`: total-cap
break, outlet match, minimum-content filter, per-bias caps.  Returns the
accumulated outputs and the left/right counters. -/
def newsLoop (compound : String → Rat) (toEpoch : String → Int) :
    List NewsArticle → List NewsOutput → Nat → Nat →
    List NewsOutput × Nat × Nat
  | [], outputs, l, r => (outputs, l, r)
  | a :: rest, outputs, l, r =>
    if MAX_TOTAL_ARTICLES ≤ outputs.length then (outputs, l, r)
    else
      match findOutlet a.url with
      | none => newsLoop compound toEpoch rest outputs l r
      | some o =>
        let clean := strip_html_tags a.content
        if clean.length < MIN_CONTENT_LENGTH then
          newsLoop compound toEpoch rest outputs l r
        else if o.bias = "left" then
          if MAX_LEFT_ARTICLES ≤ l then newsLoop compound toEpoch rest outputs l r
          else
            newsLoop compound toEpoch rest
              (outputs ++ [mkNewsOutput compound toEpoch a o clean]) (l + 1) r
        else
          if MAX_RIGHT_ARTICLES ≤ r then newsLoop compound toEpoch rest outputs l r
          else
            newsLoop compound toEpoch rest
              (outputs ++ [mkNewsOutput compound toEpoch a o clean]) l (r + 1)

/-- Attach a bias and sentiment to each social post, zipping posts with the
gathered classifier outputs exactly as the handler does. -/
def enrichPosts (compound : String → Rat) (posts : List SocialPost)
    (biases : List String) : List SocialOutput :=
  (posts.zip biases).map (fun pb =>
    let s := analyze_sentiment compound pb.1.title pb.1.contents
    { post := pb.1, bias := pb.2, sentiment := s.1, sentiment_score := s.2 })

/-- The `/search` handler's result assembly, from the three adapters'
returned lists to the `results` list of the response.  `classify` is
sentiment.classify_bias (external LLM capability, applied to title,
contents and subreddit hint; the handler passes `""` as the hint for
Bluesky posts).  `if blueskyPosts.isEmpty then [] else blueskyPosts` embeds
`bluesky_posts = bluesky_result if bluesky_result else []`. -/
def searchPipeline (compound : String → Rat) (toEpoch : String → Int)
    (classify : String → String → String → String)
    (newsArticles : List NewsArticle)
    (redditPosts blueskyPosts : List SocialPost) : List ResultItem :=
  let np := (newsLoop compound toEpoch newsArticles [] 0 0).1
  let redditBiases := redditPosts.map (fun p => classify p.title p.contents p.subreddit)
  let redditOut := enrichPosts compound redditPosts redditBiases
  let bskyPosts := if blueskyPosts.isEmpty then [] else blueskyPosts
  let bskyBiases := bskyPosts.map (fun p => classify p.title p.contents "")
  let bskyOut := enrichPosts compound bskyPosts bskyBiases
  np.map ResultItem.news ++ redditOut.map ResultItem.social ++
    bskyOut.map ResultItem.social

/-- Counts a left-bias news article in a `/search` results list. -/
def isLeftNews : ResultItem → Bool
  | .news o => decide (o.bias = "left")
  | .social _ => false

/-- Counts a right-bias news article in a `/search` results list. -/
def isRightNews : ResultItem → Bool
  | .news o => decide (o.bias = "right")
  | .social _ => false

/-- Counts any news article in a `/search` results list. -/
def isNews : ResultItem → Bool
  | .news _ => true
  | .social _ => false

/-- The stripped contents of a news result item (`none` for social posts). -/
def newsContents : ResultItem → Option String
  | .news o => some o.contents
  | .social _ => none

/-! ## Source adapters as failure domains (for the `/search` fan-out)

The adapter modules the server imports (`search.news`, `search.reddit`,
`search.bluesky` inside the `search/` package) are part of this repository
but are not under src/; only their package declaration and their caller are.
Their error behaviour is therefore modelled from the spec. -/

/-- Modelled from the spec: the `search.reddit` / `search.bluesky` adapter
modules are missing from src/; per the spec each adapter is an independent
failure domain whose failure is logged, not raised, and contributes an
empty result list. -/
def adapterPosts (outcome : Except String (List SocialPost)) : List SocialPost :=
  match outcome with
  | .ok posts => posts
  | .error _ => []

/-- Modelled from the spec: the `search.news` adapter module is missing from
src/; a failed news adapter contributes an empty article list instead of
raising to the `/search` handler. -/
def adapterNews (outcome : Except String NewsData) : List NewsArticle :=
  match outcome with
  | .ok data => data.articles
  | .error _ => []

/-- The `/search` handler over the three adapter outcomes: the gather step
joins all three and the pipeline runs on whatever each contributed. -/
def searchRun (compound : String → Rat) (toEpoch : String → Int)
    (classify : String → String → String → String)
    (newsO : Except String NewsData)
    (redditO blueskyO : Except String (List SocialPost)) : List ResultItem :=
  searchPipeline compound toEpoch classify (adapterNews newsO)
    (adapterPosts redditO) (adapterPosts blueskyO)

/-! ## search.py: key rotation for search_news -/

/-- The outcome of one HTTP attempt inside search.search_news, as seen at
the `try` block: an HTTP error status raised by `raise_for_status`, a
non-HTTP transport failure, or a parsed JSON body (`status`, `code`,
`message` fields plus the article payload). -/
inductive ApiResponse where
  | httpError (status : Nat) (msg : String)
  | netError (msg : String)
  | body (status code message : String) (data : NewsData)
deriving DecidableEq, Repr

/-- What a search_news call produces: the parsed data, or one of the four
distinct failure shapes of the source (`Exception("API Error: ...")`, a
re-raised HTTPError, a re-raised generic exception, or the final
`Exception("Failed after ... attempts with different API keys")`). -/
inductive NewsOutcome where
  | ok (data : NewsData)
  | apiError (message : String)
  | httpFailure (status : Nat) (msg : String)
  | otherFailure (msg : String)
  | exhausted (attempts : Nat)
deriving DecidableEq, Repr

/-- The body rate-limit test `"rateLimit" in data.get("code", "").lower()`. -/
def rateLimitHit (code : String) : Bool :=
  pyInStr "rateLimit" (pyLower code)

/-- The `for attempt in range(max_retries)` loop of search.search_news.
`remaining` counts attempts still allowed (so the current attempt number is
`maxRetries - remaining`), `idx` is the module-global `_current_key_index`
read and advanced by `_get_next_api_key`, and `used` accumulates the keys
handed out, in order.  `oracle` maps an attempt number to that attempt's
HTTP outcome.  Control flow mirrors the source: HTTP 429 continues with the
next key; any other HTTP error re-raises at once; an error body whose code
passes the rate-limit test continues; any other exception inside the `try`
(including the `API Error` exception raised for a non-rate-limit error
body) is caught by the trailing `except Exception` and re-raised only on
the last attempt, otherwise the loop continues; falling off the loop raises
the exhaustion error. -/
def searchNewsLoop (keys : List String) (oracle : Nat → ApiResponse)
    (maxRetries : Nat) :
    Nat → Nat → List String → NewsOutcome × List String
  | 0, _, used => (.exhausted maxRetries, used)
  | n + 1, idx, used =>
    let key := keys.getD idx ""
    let idxNext := (idx + 1) % keys.length
    let usedNext := used ++ [key]
    match oracle (maxRetries - (n + 1)) with
    | .httpError status msg =>
      if status = 429 then searchNewsLoop keys oracle maxRetries n idxNext usedNext
      else (.httpFailure status msg, usedNext)
    | .netError msg =>
      if n = 0 then (.otherFailure msg, usedNext)
      else searchNewsLoop keys oracle maxRetries n idxNext usedNext
    | .body status code message data =>
      if status = "error" then
        if rateLimitHit code then
          searchNewsLoop keys oracle maxRetries n idxNext usedNext
        else if n = 0 then (.apiError ("API Error: " ++ message), usedNext)
        else searchNewsLoop keys oracle maxRetries n idxNext usedNext
      else (.ok data, usedNext)

/-- search.search_news: run the retry loop from the current rotation index,
also reporting the keys used, in order. -/
def search_news (keys : List String) (oracle : Nat → ApiResponse)
    (maxRetries : Nat) (startIdx : Nat) : NewsOutcome × List String :=
  searchNewsLoop keys oracle maxRetries maxRetries startIdx []

/-! ## database.py: the articles table

The articles table holds one row per (session_id, url) pair (UNIQUE
constraint); `json.loads(json.dumps(d)) = d` for the stored payloads, so a
row's data column is modelled as the payload value itself. -/

/-- The articles table: rows of ((session_id, url), data). -/
def Store (α : Type) : Type := List ((String × String) × α)

/-- One `INSERT ... ON CONFLICT (session_id, url) DO UPDATE SET data = $3`:
update the row keyed (sid, url) if present, append a fresh row otherwise. -/
def upsertOne {α : Type} : Store α → String → String → α → Store α
  | [], sid, url, d => [((sid, url), d)]
  | e :: rest, sid, url, d =>
    if e.1 = (sid, url) then (e.1, d) :: rest
    else e :: upsertOne rest sid url d

/-- database.store_articles_batch: `executemany` of the upsert statement
over the (url, data) list, in order. -/
def store_articles_batch {α : Type} (st : Store α) (sid : String)
    (articles : List (String × α)) : Store α :=
  articles.foldl (fun acc ud => upsertOne acc sid ud.1 ud.2) st

/-- database.get_article: the data of the row keyed (sid, url), if any. -/
def get_article {α : Type} : Store α → String → String → Option α
  | [], _, _ => none
  | e :: rest, sid, url =>
    if e.1 = (sid, url) then some e.2 else get_article rest sid url

/-- The (session_id, url) keys of the table, in row order. -/
def storeKeys {α : Type} (st : Store α) : List (String × String) :=
  st.map Prod.fst

/-! ## server.py: /summary and /insights endpoints -/

/-- The fields of a stored article dict that the summary and insights
handlers read (`article.get("source", "")` and friends). -/
structure ArticleRecord where
  source : String
  title : String
  contents : String
  bias : String
deriving DecidableEq, Repr

/-- What an endpoint invocation produces: a raised `HTTPException`, a
success payload, the handler's own `{"error": ...}` dict (returned with
HTTP 200), or an uncaught storage exception (the framework's generic
failure). -/
inductive EndpointResult (α : Type) where
  | httpException (status : Nat) (detail : String)
  | payload (value : α)
  | errorPayload (message : String)
  | storageFailure (message : String)
deriving DecidableEq, Repr

/-- The `/summary` success dict. -/
structure SummaryPayload where
  url : String
  title : String
  source : String
  summary : String
deriving DecidableEq, Repr

/-- The news-source list both handlers compare `article.get("source")`
against. -/
def NEWS_SOURCES : List String :=
  ["CNN", "CBS News", "NBC News", "ABC News", "Fox News", "Breitbart",
   "NY Post", "OANN"]

/-- The scraper chosen by `for domain, info in OUTLETS.items(): if domain
in url: scraper = info.get("scraper"); break`. -/
def scraperFor (url : String) : Option String :=
  (findOutlet url).map Outlet.scraper

/-- The process-global `scraped_content_cache` dict: url to full text,
newest binding first. -/
def Cache : Type := List (String × String)

/-- Dict lookup `url in scraped_content_cache` / `cache[url]`. -/
def cacheLookup (cache : Cache) (url : String) : Option String :=
  (cache.find? (fun e => decide (e.1 = url))).map Prod.snd

/-- Dict assignment `scraped_content_cache[url] = full_content`. -/
def cacheInsert (cache : Cache) (url content : String) : Cache :=
  (url, content) :: cache

/-- The content-resolution block both handlers share verbatim: for a news
source, use the cache; on a miss, run the outlet's scraper and cache the
full text; on a scraper failure (or no matching scraper) fall back to the
stored short-form contents without touching the cache.  `runScraper` maps
a scraper name and url to the scrape outcome. -/
def fetchContent (runScraper : String → String → Except String String)
    (cache : Cache) (article : ArticleRecord) (url : String) :
    String × Cache :=
  if article.source ∈ NEWS_SOURCES then
    match cacheLookup cache url with
    | some cached => (cached, cache)
    | none =>
      match scraperFor url with
      | some sc =>
        match runScraper sc url with
        | .ok full => (full, cacheInsert cache url full)
        | .error _ => (article.contents, cache)
      | none => (article.contents, cache)
  else (article.contents, cache)

/-- The `/summary` handler: 404 on an unknown session or url, otherwise
resolve the content (scraping lazily through the cache) and summarize;
a summarization failure becomes the `{"error": ...}` payload.  `db` is the
state behind the database pool: the sessions table and the articles table,
or a storage failure that any database call surfaces uncaught. -/
def summaryEndpoint (runScraper : String → String → Except String String)
    (summarize : String → String → Except String String)
    (db : Except String (List String × Store ArticleRecord))
    (cache : Cache) (url session_id : String) :
    EndpointResult SummaryPayload × Cache :=
  match db with
  | .error e => (.storageFailure e, cache)
  | .ok (sessions, st) =>
    if session_id ∈ sessions then
      match get_article st session_id url with
      | none =>
        (.httpException 404
          "URL not found in this session. Please search for content first.",
          cache)
      | some article =>
        let scraped := fetchContent runScraper cache article url
        match summarize article.title scraped.1 with
        | .ok s =>
          (.payload ⟨url, article.title, article.source, s⟩, scraped.2)
        | .error e =>
          (.errorPayload ("Failed to generate summary: " ++ e), scraped.2)
    else
      (.httpException 404
        "Session not found. Please search for content first.", cache)

/-- One entry of the `left_articles` / `right_articles` lists built by
`/insights` (title, source, content truncated to 2000 characters). -/
structure ContextEntry where
  title : String
  source : String
  content : String
deriving DecidableEq, Repr

/-- The `for item in articles` loop of `/insights`: an unknown url is
skipped (`continue`); otherwise the content is resolved exactly as in
`/summary` and the entry is appended to the left or right list according
to the bias the request supplied, any other bias joining neither. -/
def insightsLoop (runScraper : String → String → Except String String)
    (st : Store ArticleRecord) (session_id : String) :
    List (String × String) → Cache → List ContextEntry → List ContextEntry →
    List ContextEntry × List ContextEntry × Cache
  | [], cache, lefts, rights => (lefts, rights, cache)
  | (url, bias) :: rest, cache, lefts, rights =>
    match get_article st session_id url with
    | none => insightsLoop runScraper st session_id rest cache lefts rights
    | some article =>
      let scraped := fetchContent runScraper cache article url
      let entry : ContextEntry :=
        ⟨article.title, article.source, scraped.1.take 2000⟩
      if bias = "left" then
        insightsLoop runScraper st session_id rest scraped.2
          (lefts ++ [entry]) rights
      else if bias = "right" then
        insightsLoop runScraper st session_id rest scraped.2 lefts
          (rights ++ [entry])
      else
        insightsLoop runScraper st session_id rest scraped.2 lefts rights

/-- The joined context string `"\n\n".join(f"[{source}] {title}\n{content}")`. -/
def contextOf (entries : List ContextEntry) : String :=
  String.intercalate "\n\n"
    (entries.map (fun a => "[" ++ a.source ++ "] " ++ a.title ++ "\n" ++ a.content))

/-- The `/insights` success dict (common_ground abstracts the JSON array). -/
structure InsightsPayload where
  key_takeaway_left : String
  key_takeaway_right : String
  common_ground : String
deriving DecidableEq, Repr

/-- The `/insights` handler: 404 on an unknown session, otherwise group the
requested articles by their supplied bias, build the two context strings
and call the insight generator; its failure becomes the `{"error": ...}`
payload. -/
def insightsEndpoint (runScraper : String → String → Except String String)
    (genInsights : String → String → Except String InsightsPayload)
    (db : Except String (List String × Store ArticleRecord))
    (cache : Cache) (session_id : String)
    (articles : List (String × String)) :
    EndpointResult InsightsPayload × Cache :=
  match db with
  | .error e => (.storageFailure e, cache)
  | .ok (sessions, st) =>
    if session_id ∈ sessions then
      let groups := insightsLoop runScraper st session_id articles cache [] []
      match genInsights (contextOf groups.1) (contextOf groups.2.1) with
      | .ok p => (.payload p, groups.2.2)
      | .error e =>
        (.errorPayload ("Failed to generate insights: " ++ e), groups.2.2)
    else
      (.httpException 404
        "Session not found. Please search for content first.", cache)

/-- Holds when an endpoint outcome is the client-facing 404 condition. -/
def isNotFound {α : Type} : EndpointResult α → Bool
  | .httpException 404 _ => true
  | _ => false

/-- Rewrite the bias field of every stored article record (used to state
that grouping in `/insights` ignores the stored bias). -/
def mapBias (f : String → String) (st : Store ArticleRecord) :
    Store ArticleRecord :=
  st.map (fun e => (e.1, { e.2 with bias := f e.2.bias }))

/-! ## Concrete instances used by witnesses and counterexamples -/

/-- A hundred characters of plain text (exactly `MIN_CONTENT_LENGTH`). -/
def content100 : String := String.mk (List.replicate 100 'a')

/-- A valid left-outlet candidate whose stripped content has length 100. -/
def leftArt : NewsArticle :=
  ⟨"https://www.cnn.com/a", "t", content100, "au", "2026-01-16T22:36:55Z"⟩

/-- A valid right-outlet candidate whose stripped content has length 100. -/
def rightArt : NewsArticle :=
  ⟨"https://www.foxnews.com/b", "t", content100, "au", "2026-01-16T22:36:55Z"⟩

/-- 22 left candidates followed by 22 right candidates: two more than each
bias cap admits. -/
def arts44 : List NewsArticle :=
  List.replicate 22 leftArt ++ List.replicate 22 rightArt

/-- Eleven Reddit posts (within the `limit=20` the handler requests). -/
def posts11 : List SocialPost :=
  (List.range 11).map (fun i => ⟨"https://reddit.com/" ++ toString i, "t", "", "news"⟩)

/-- The pool of three credentials of the key-rotator scenario. -/
def threeKeys : List String := ["key1", "key2", "key3"]

/-- Every attempt answered by an HTTP 200 body flagging the provider's
rate limit (`status: "error", code: "rateLimited"`). -/
def allRateLimitedBody : Nat → ApiResponse :=
  fun _ => .body "error" "rateLimited" "You have been rate limited" ⟨[]⟩

/-- Every attempt answered by HTTP 429. -/
def allThrottled429 : Nat → ApiResponse :=
  fun _ => .httpError 429 "too many requests"

/-- Attempts 0 and 1 throttled with HTTP 429, attempt 2 successful. -/
def twoThrottledThenOk : Nat → ApiResponse := fun attempt =>
  if attempt < 2 then .httpError 429 "too many requests"
  else .body "ok" "" "" ⟨[]⟩

/-- Attempt 0 answered by a non-throttling provider error body, attempt 1
successful. -/
def badRequestThenOk : Nat → ApiResponse := fun attempt =>
  if attempt = 0 then .body "error" "parametersMissing" "bad request" ⟨[]⟩
  else .body "ok" "" "" ⟨[]⟩

/-- An insights request naming one url with supplied bias "left". -/
def insightsReq : List (String × String) := [("http://example.com/a", "left")]

/-- An insight generator that always succeeds. -/
def genInsightsOk : String → String → Except String InsightsPayload :=
  fun _ _ => .ok ⟨"L", "R", "C"⟩

/-- A scraper capability that always fails. -/
def scraperFail : String → String → Except String String :=
  fun _ _ => .error "offline"

/-- A summarizer that echoes its content input. -/
def summarizeEcho : String → String → Except String String :=
  fun _ c => .ok ("summary of " ++ c)

/-- A CNN url recognised by the outlet table. -/
def cnnUrl : String := "https://www.cnn.com/2024/article"

/-- The stored short-form record behind `cnnUrl`. -/
def cnnRecord : ArticleRecord := ⟨"CNN", "Title", "short contents", "left"⟩

/-- A one-session store holding `cnnRecord` under session "sess1". -/
def cnnStore : Store ArticleRecord := [(("sess1", cnnUrl), cnnRecord)]

/-- The CNN row of the outlet table. -/
def cnnOutlet : Outlet := ⟨"cnn.com", "CNN", "left", "fetch_cnn"⟩

/-- The Fox News row of the outlet table. -/
def foxOutlet : Outlet := ⟨"foxnews.com", "Fox News", "right", "fetch_fox"⟩

/-- The news output admitted for `leftArt` under trivial capabilities. -/
def leftOut : NewsOutput :=
  mkNewsOutput (fun _ => 0) (fun _ => 0) leftArt cnnOutlet
    (strip_html_tags leftArt.content)

/-! ## News-loop lemmas -/

theorem findOutlet_bias (url : String) (o : Outlet)
    (hfo : findOutlet url = some o) : o.bias = "left" ∨ o.bias = "right" := by
  have hmem : o ∈ OUTLETS := List.mem_of_find?_eq_some hfo
  have hall : ∀ x ∈ OUTLETS, x.bias = "left" ∨ x.bias = "right" := by decide
  exact hall o hmem

theorem newsLoop_cons_break (compound : String → Rat) (toEpoch : String → Int)
    (a : NewsArticle) (rest : List NewsArticle) (outs : List NewsOutput)
    (l r : Nat) (hlen : MAX_TOTAL_ARTICLES ≤ outs.length) :
    newsLoop compound toEpoch (a :: rest) outs l r = (outs, l, r) := by
  rw [newsLoop, if_pos hlen]

theorem newsLoop_cons_no_outlet (compound : String → Rat) (toEpoch : String → Int)
    (a : NewsArticle) (rest : List NewsArticle) (outs : List NewsOutput)
    (l r : Nat) (hfo : findOutlet a.url = none)
    (hlen : outs.length < MAX_TOTAL_ARTICLES) :
    newsLoop compound toEpoch (a :: rest) outs l r =
      newsLoop compound toEpoch rest outs l r := by
  simp [newsLoop, hfo, Nat.not_le.mpr hlen]

theorem newsLoop_cons_short (compound : String → Rat) (toEpoch : String → Int)
    (a : NewsArticle) (rest : List NewsArticle) (outs : List NewsOutput)
    (l r : Nat) (o : Outlet) (hfo : findOutlet a.url = some o)
    (hlen : outs.length < MAX_TOTAL_ARTICLES)
    (hcl : (strip_html_tags a.content).length < MIN_CONTENT_LENGTH) :
    newsLoop compound toEpoch (a :: rest) outs l r =
      newsLoop compound toEpoch rest outs l r := by
  simp [newsLoop, hfo, Nat.not_le.mpr hlen, hcl]

theorem newsLoop_skip_left_cap (compound : String → Rat) (toEpoch : String → Int)
    (a : NewsArticle) (rest : List NewsArticle) (outs : List NewsOutput)
    (l r : Nat) (o : Outlet) (hfo : findOutlet a.url = some o)
    (hlen : outs.length < MAX_TOTAL_ARTICLES)
    (hcl : ¬ (strip_html_tags a.content).length < MIN_CONTENT_LENGTH)
    (hbias : o.bias = "left") (hl : MAX_LEFT_ARTICLES ≤ l) :
    newsLoop compound toEpoch (a :: rest) outs l r =
      newsLoop compound toEpoch rest outs l r := by
  simp [newsLoop, hfo, Nat.not_le.mpr hlen, hcl, hbias, hl]

theorem newsLoop_admit_left (compound : String → Rat) (toEpoch : String → Int)
    (a : NewsArticle) (rest : List NewsArticle) (outs : List NewsOutput)
    (l r : Nat) (o : Outlet) (hfo : findOutlet a.url = some o)
    (hlen : outs.length < MAX_TOTAL_ARTICLES)
    (hcl : ¬ (strip_html_tags a.content).length < MIN_CONTENT_LENGTH)
    (hbias : o.bias = "left") (hl : l < MAX_LEFT_ARTICLES) :
    newsLoop compound toEpoch (a :: rest) outs l r =
      newsLoop compound toEpoch rest
        (outs ++ [mkNewsOutput compound toEpoch a o (strip_html_tags a.content)])
        (l + 1) r := by
  simp [newsLoop, hfo, Nat.not_le.mpr hlen, hcl, hbias, Nat.not_le.mpr hl]

theorem newsLoop_skip_right_cap (compound : String → Rat) (toEpoch : String → Int)
    (a : NewsArticle) (rest : List NewsArticle) (outs : List NewsOutput)
    (l r : Nat) (o : Outlet) (hfo : findOutlet a.url = some o)
    (hlen : outs.length < MAX_TOTAL_ARTICLES)
    (hcl : ¬ (strip_html_tags a.content).length < MIN_CONTENT_LENGTH)
    (hbias : ¬ o.bias = "left") (hr : MAX_RIGHT_ARTICLES ≤ r) :
    newsLoop compound toEpoch (a :: rest) outs l r =
      newsLoop compound toEpoch rest outs l r := by
  simp [newsLoop, hfo, Nat.not_le.mpr hlen, hcl, hbias, hr]

theorem newsLoop_admit_right (compound : String → Rat) (toEpoch : String → Int)
    (a : NewsArticle) (rest : List NewsArticle) (outs : List NewsOutput)
    (l r : Nat) (o : Outlet) (hfo : findOutlet a.url = some o)
    (hlen : outs.length < MAX_TOTAL_ARTICLES)
    (hcl : ¬ (strip_html_tags a.content).length < MIN_CONTENT_LENGTH)
    (hbias : ¬ o.bias = "left") (hr : r < MAX_RIGHT_ARTICLES) :
    newsLoop compound toEpoch (a :: rest) outs l r =
      newsLoop compound toEpoch rest
        (outs ++ [mkNewsOutput compound toEpoch a o (strip_html_tags a.content)])
        l (r + 1) := by
  simp [newsLoop, hfo, Nat.not_le.mpr hlen, hcl, hbias, Nat.not_le.mpr hr]

theorem newsLoop_invariant (compound : String → Rat) (toEpoch : String → Int) :
    ∀ (arts : List NewsArticle) (outs : List NewsOutput) (l r : Nat),
      outs.countP (fun o => decide (o.bias = "left")) = l →
      outs.countP (fun o => decide (o.bias = "right")) = r →
      outs.length = l + r → l ≤ MAX_LEFT_ARTICLES → r ≤ MAX_RIGHT_ARTICLES →
      (newsLoop compound toEpoch arts outs l r).1.countP
          (fun o => decide (o.bias = "left")) =
        (newsLoop compound toEpoch arts outs l r).2.1 ∧
      (newsLoop compound toEpoch arts outs l r).1.countP
          (fun o => decide (o.bias = "right")) =
        (newsLoop compound toEpoch arts outs l r).2.2 ∧
      (newsLoop compound toEpoch arts outs l r).1.length =
        (newsLoop compound toEpoch arts outs l r).2.1 +
          (newsLoop compound toEpoch arts outs l r).2.2 ∧
      (newsLoop compound toEpoch arts outs l r).2.1 ≤ MAX_LEFT_ARTICLES ∧
      (newsLoop compound toEpoch arts outs l r).2.2 ≤ MAX_RIGHT_ARTICLES := by
  intro arts
  induction arts with
  | nil =>
    intro outs l r h1 h2 h3 h4 h5
    simp only [newsLoop]
    exact ⟨h1, h2, h3, h4, h5⟩
  | cons a rest ih =>
    intro outs l r h1 h2 h3 h4 h5
    by_cases hlen : MAX_TOTAL_ARTICLES ≤ outs.length
    · rw [newsLoop_cons_break compound toEpoch a rest outs l r hlen]
      exact ⟨h1, h2, h3, h4, h5⟩
    · have hlen2 : outs.length < MAX_TOTAL_ARTICLES := Nat.not_le.mp hlen
      rcases hfo : findOutlet a.url with _ | o
      · rw [newsLoop_cons_no_outlet compound toEpoch a rest outs l r hfo hlen2]
        exact ih outs l r h1 h2 h3 h4 h5
      · by_cases hcl : (strip_html_tags a.content).length < MIN_CONTENT_LENGTH
        · rw [newsLoop_cons_short compound toEpoch a rest outs l r o hfo hlen2 hcl]
          exact ih outs l r h1 h2 h3 h4 h5
        · by_cases hbias : o.bias = "left"
          · by_cases hl : MAX_LEFT_ARTICLES ≤ l
            · rw [newsLoop_skip_left_cap compound toEpoch a rest outs l r o hfo
                hlen2 hcl hbias hl]
              exact ih outs l r h1 h2 h3 h4 h5
            · rw [newsLoop_admit_left compound toEpoch a rest outs l r o hfo
                hlen2 hcl hbias (Nat.not_le.mp hl)]
              apply ih
              · simp [List.countP_append, h1, mkNewsOutput, hbias]
              · simp [List.countP_append, h2, mkNewsOutput, hbias]
              · simp [h3]; omega
              · omega
              · exact h5
          · have hright : o.bias = "right" :=
              (findOutlet_bias a.url o hfo).resolve_left hbias
            by_cases hr : MAX_RIGHT_ARTICLES ≤ r
            · rw [newsLoop_skip_right_cap compound toEpoch a rest outs l r o hfo
                hlen2 hcl hbias hr]
              exact ih outs l r h1 h2 h3 h4 h5
            · rw [newsLoop_admit_right compound toEpoch a rest outs l r o hfo
                hlen2 hcl hbias (Nat.not_le.mp hr)]
              apply ih
              · simp [List.countP_append, h1, mkNewsOutput, hright]
              · simp [List.countP_append, h2, mkNewsOutput, hright]
              · simp [h3]; omega
              · exact h4
              · omega

theorem newsLoop_min_contents (compound : String → Rat) (toEpoch : String → Int) :
    ∀ (arts : List NewsArticle) (outs : List NewsOutput) (l r : Nat),
      (∀ o ∈ outs, MIN_CONTENT_LENGTH ≤ o.contents.length) →
      ∀ o ∈ (newsLoop compound toEpoch arts outs l r).1,
        MIN_CONTENT_LENGTH ≤ o.contents.length := by
  intro arts
  induction arts with
  | nil =>
    intro outs l r h
    simpa only [newsLoop] using h
  | cons a rest ih =>
    intro outs l r h
    by_cases hlen : MAX_TOTAL_ARTICLES ≤ outs.length
    · rw [newsLoop_cons_break compound toEpoch a rest outs l r hlen]
      exact h
    · have hlen2 : outs.length < MAX_TOTAL_ARTICLES := Nat.not_le.mp hlen
      rcases hfo : findOutlet a.url with _ | o
      · rw [newsLoop_cons_no_outlet compound toEpoch a rest outs l r hfo hlen2]
        exact ih outs l r h
      · by_cases hcl : (strip_html_tags a.content).length < MIN_CONTENT_LENGTH
        · rw [newsLoop_cons_short compound toEpoch a rest outs l r o hfo hlen2 hcl]
          exact ih outs l r h
        · have hnew : ∀ x ∈ outs ++
              [mkNewsOutput compound toEpoch a o (strip_html_tags a.content)],
              MIN_CONTENT_LENGTH ≤ x.contents.length := by
            intro x hx
            rcases List.mem_append.mp hx with hx | hx
            · exact h x hx
            · rcases List.mem_singleton.mp hx with rfl
              simpa [mkNewsOutput] using Nat.not_lt.mp hcl
          by_cases hbias : o.bias = "left"
          · by_cases hl : MAX_LEFT_ARTICLES ≤ l
            · rw [newsLoop_skip_left_cap compound toEpoch a rest outs l r o hfo
                hlen2 hcl hbias hl]
              exact ih outs l r h
            · rw [newsLoop_admit_left compound toEpoch a rest outs l r o hfo
                hlen2 hcl hbias (Nat.not_le.mp hl)]
              exact ih _ _ _ hnew
          · by_cases hr : MAX_RIGHT_ARTICLES ≤ r
            · rw [newsLoop_skip_right_cap compound toEpoch a rest outs l r o hfo
                hlen2 hcl hbias hr]
              exact ih outs l r h
            · rw [newsLoop_admit_right compound toEpoch a rest outs l r o hfo
                hlen2 hcl hbias (Nat.not_le.mp hr)]
              exact ih _ _ _ hnew

/-! ## Store lemmas -/

theorem get_upsert_same {α : Type} (st : Store α) (s u : String) (d : α) :
    get_article (upsertOne st s u d) s u = some d := by
  induction st with
  | nil => simp [upsertOne, get_article]
  | cons e rest ih =>
    by_cases h : e.1 = (s, u) <;> simp [upsertOne, get_article, h, ih]

theorem get_upsert_other {α : Type} (st : Store α) (s u s2 u2 : String)
    (d : α) (h : (s2, u2) ≠ (s, u)) :
    get_article (upsertOne st s2 u2 d) s u = get_article st s u := by
  induction st with
  | nil =>
    simp only [upsertOne, get_article]
    rw [if_neg h]
  | cons e rest ih =>
    by_cases he : e.1 = (s2, u2)
    · have hne : ¬ e.1 = (s, u) := by rw [he]; exact h
      simp only [upsertOne, if_pos he, get_article]
      rw [if_neg hne, if_neg hne]
    · simp only [upsertOne, if_neg he, get_article]
      by_cases hs : e.1 = (s, u)
      · rw [if_pos hs, if_pos hs]
      · rw [if_neg hs, if_neg hs]
        exact ih

theorem upsert_idem {α : Type} (st : Store α) (s u : String) (d : α) :
    upsertOne (upsertOne st s u d) s u d = upsertOne st s u d := by
  induction st with
  | nil => simp [upsertOne]
  | cons e rest ih =>
    by_cases h : e.1 = (s, u) <;> simp [upsertOne, h, ih]

theorem mem_storeKeys_upsert {α : Type} (s u : String) (d : α)
    (k : String × String) :
    ∀ st : Store α, k ∈ storeKeys (upsertOne st s u d) →
      k ∈ storeKeys st ∨ k = (s, u) := by
  intro st
  induction st with
  | nil =>
    intro hk
    simp only [upsertOne, storeKeys, List.map_cons, List.map_nil,
      List.mem_singleton] at hk
    exact Or.inr hk
  | cons e rest ih =>
    intro hk
    by_cases h : e.1 = (s, u)
    · simp only [upsertOne, if_pos h, storeKeys, List.map_cons,
        List.mem_cons] at hk ⊢
      exact Or.inl hk
    · simp only [upsertOne, if_neg h, storeKeys, List.map_cons,
        List.mem_cons] at hk ⊢
      rcases hk with hk | hk
      · exact Or.inl (Or.inl hk)
      · rcases ih hk with hk2 | hk2
        · exact Or.inl (Or.inr hk2)
        · exact Or.inr hk2

theorem upsert_keys_nodup {α : Type} (st : Store α) (s u : String) (d : α)
    (h : (storeKeys st).Nodup) : (storeKeys (upsertOne st s u d)).Nodup := by
  induction st with
  | nil => simp [upsertOne, storeKeys]
  | cons e rest ih =>
    simp only [storeKeys, List.map_cons, List.nodup_cons] at h
    by_cases he : e.1 = (s, u)
    · simp only [upsertOne, if_pos he, storeKeys, List.map_cons,
        List.nodup_cons]
      exact h
    · simp only [upsertOne, if_neg he, storeKeys, List.map_cons,
        List.nodup_cons]
      refine ⟨?_, ih h.2⟩
      intro hmem
      rcases mem_storeKeys_upsert s u d e.1 rest hmem with hk | hk
      · exact h.1 hk
      · exact he hk

theorem batch_last_write {α : Type} (s u : String) :
    ∀ (ds : List α) (st : Store α) (h : ds ≠ []),
      get_article (store_articles_batch st s (ds.map (fun x => (u, x)))) s u =
        some (ds.getLast h)
  | [], _, h => absurd rfl h
  | [d], st, _ => by
    simpa [store_articles_batch] using get_upsert_same st s u d
  | d :: d2 :: ds, st, _ => by
    have := batch_last_write s u (d2 :: ds) (upsertOne st s u d) (by simp)
    simpa [store_articles_batch, List.foldl_cons] using this

/-! ## Claim C3 -/

/-- C3: for every session id S and url U, `upsert` then `get_article`
returns the last-upserted record (last-write-wins): re-upserting an
existing (session, url) pair overwrites the prior record without creating
a duplicate row, a foreign-key upsert leaves the pair's record unchanged,
repeating an identical upsert is idempotent, and after any nonempty
sequence of upserts of the pair the stored record is the last one
supplied. -/
theorem store_last_write_wins (α : Type) (st : Store α) (s u : String) (d : α) :
    (get_article (upsertOne st s u d) s u = some d) ∧
    (∀ (s2 u2 : String) (d2 : α), (s2, u2) ≠ (s, u) →
      get_article (upsertOne st s2 u2 d2) s u = get_article st s u) ∧
    (upsertOne (upsertOne st s u d) s u d = upsertOne st s u d) ∧
    ((storeKeys st).Nodup → (storeKeys (upsertOne st s u d)).Nodup) ∧
    (∀ (ds : List α) (h : ds ≠ []),
      get_article (store_articles_batch st s (ds.map (fun x => (u, x)))) s u =
        some (ds.getLast h)) :=
  ⟨get_upsert_same st s u d,
   fun s2 u2 d2 h => get_upsert_other st s u s2 u2 d2 h,
   upsert_idem st s u d,
   upsert_keys_nodup st s u d,
   fun ds h => batch_last_write s u ds st h⟩

/-- Witness for C3 at a concrete store: the overwritten record wins, an
upsert of a different key leaves the pair unchanged, and a two-element
batch leaves the second record. -/
theorem store_last_write_wins_witness :
    get_article (upsertOne ([] : Store Nat) "s" "u" 0) "s" "u" = some 0 ∧
    get_article (upsertOne ([] : Store Nat) "s2" "u" 1) "s" "u" =
      get_article ([] : Store Nat) "s" "u" ∧
    get_article
      (store_articles_batch ([] : Store Nat) "s" ([1, 2].map (fun x => ("u", x))))
      "s" "u" = some 2 := by
  refine ⟨(store_last_write_wins Nat [] "s" "u" 0).1,
    (store_last_write_wins Nat [] "s" "u" 0).2.1 "s2" "u" 1 (by decide), ?_⟩
  exact (store_last_write_wins Nat [] "s" "u" 0).2.2.2.2 [1, 2] (by decide)

/-! ## Claim C1 -/

/-- C1 (amended): in every `/search` response the number of admitted
left-bias news articles is at most MAX_LEFT_ARTICLES, the number of
admitted right-bias news articles is at most MAX_RIGHT_ARTICLES, and the
number of news articles is at most MAX_TOTAL_ARTICLES (the total cap
guards only the news admission loop; social posts are appended afterwards
without a cap, so the full results list may exceed 50 — see the
counterexample); at the boundary, with a bias cap exactly reached, the next
passing candidate of that bias is rejected while a passing candidate of
the other bias is still admitted when its own cap and the total cap are
not reached. -/
theorem search_caps (compound : String → Rat) (toEpoch : String → Int)
    (classify : String → String → String → String) :
    (∀ (arts : List NewsArticle) (rposts bposts : List SocialPost),
      (searchPipeline compound toEpoch classify arts rposts bposts).countP
          isLeftNews ≤ MAX_LEFT_ARTICLES ∧
      (searchPipeline compound toEpoch classify arts rposts bposts).countP
          isRightNews ≤ MAX_RIGHT_ARTICLES ∧
      (searchPipeline compound toEpoch classify arts rposts bposts).countP
          isNews ≤ MAX_TOTAL_ARTICLES) ∧
    (∀ (a : NewsArticle) (rest : List NewsArticle) (outs : List NewsOutput)
        (r : Nat) (o : Outlet), findOutlet a.url = some o → o.bias = "left" →
      ¬ (strip_html_tags a.content).length < MIN_CONTENT_LENGTH →
      outs.length < MAX_TOTAL_ARTICLES →
      newsLoop compound toEpoch (a :: rest) outs MAX_LEFT_ARTICLES r =
        newsLoop compound toEpoch rest outs MAX_LEFT_ARTICLES r) ∧
    (∀ (a : NewsArticle) (rest : List NewsArticle) (outs : List NewsOutput)
        (r : Nat) (o : Outlet), findOutlet a.url = some o → ¬ o.bias = "left" →
      ¬ (strip_html_tags a.content).length < MIN_CONTENT_LENGTH →
      outs.length < MAX_TOTAL_ARTICLES → r < MAX_RIGHT_ARTICLES →
      newsLoop compound toEpoch (a :: rest) outs MAX_LEFT_ARTICLES r =
        newsLoop compound toEpoch rest
          (outs ++ [mkNewsOutput compound toEpoch a o (strip_html_tags a.content)])
          MAX_LEFT_ARTICLES (r + 1)) ∧
    (∀ (a : NewsArticle) (rest : List NewsArticle) (outs : List NewsOutput)
        (l : Nat) (o : Outlet), findOutlet a.url = some o → ¬ o.bias = "left" →
      ¬ (strip_html_tags a.content).length < MIN_CONTENT_LENGTH →
      outs.length < MAX_TOTAL_ARTICLES →
      newsLoop compound toEpoch (a :: rest) outs l MAX_RIGHT_ARTICLES =
        newsLoop compound toEpoch rest outs l MAX_RIGHT_ARTICLES) ∧
    (∀ (a : NewsArticle) (rest : List NewsArticle) (outs : List NewsOutput)
        (l : Nat) (o : Outlet), findOutlet a.url = some o → o.bias = "left" →
      ¬ (strip_html_tags a.content).length < MIN_CONTENT_LENGTH →
      outs.length < MAX_TOTAL_ARTICLES → l < MAX_LEFT_ARTICLES →
      newsLoop compound toEpoch (a :: rest) outs l MAX_RIGHT_ARTICLES =
        newsLoop compound toEpoch rest
          (outs ++ [mkNewsOutput compound toEpoch a o (strip_html_tags a.content)])
          (l + 1) MAX_RIGHT_ARTICLES) := by
  refine ⟨?_, ?_, ?_, ?_, ?_⟩
  · intro arts rposts bposts
    obtain ⟨hL, hR, hLen, hLle, hRle⟩ :=
      newsLoop_invariant compound toEpoch arts [] 0 0 (by simp) (by simp)
        (by simp) (Nat.zero_le _) (Nat.zero_le _)
    refine ⟨?_, ?_, ?_⟩
    · simp only [searchPipeline, List.countP_append, List.countP_map,
        Function.comp_def, isLeftNews, List.countP_false, Function.const_apply,
        Nat.add_zero]
      rw [hL]
      exact hLle
    · simp only [searchPipeline, List.countP_append, List.countP_map,
        Function.comp_def, isRightNews, List.countP_false, Function.const_apply,
        Nat.add_zero]
      rw [hR]
      exact hRle
    · simp only [searchPipeline, List.countP_append, List.countP_map,
        Function.comp_def, isNews, List.countP_false, List.countP_true,
        Function.const_apply, Nat.add_zero]
      rw [hLen]
      simp only [MAX_LEFT_ARTICLES, MAX_RIGHT_ARTICLES] at hLle hRle
      simp only [MAX_TOTAL_ARTICLES]
      omega
  · intro a rest outs r o hfo hbias hcl hlen
    exact newsLoop_skip_left_cap compound toEpoch a rest outs _ r o hfo hlen
      hcl hbias (Nat.le_refl _)
  · intro a rest outs r o hfo hbias hcl hlen hr
    exact newsLoop_admit_right compound toEpoch a rest outs _ r o hfo hlen
      hcl hbias hr
  · intro a rest outs l o hfo hbias hcl hlen
    exact newsLoop_skip_right_cap compound toEpoch a rest outs l _ o hfo hlen
      hcl hbias (Nat.le_refl _)
  · intro a rest outs l o hfo hbias hcl hlen hl
    exact newsLoop_admit_left compound toEpoch a rest outs l _ o hfo hlen
      hcl hbias hl

/-- Counterexample for C1 as stated: with 44 provider candidates (22 per
bias, each passing the outlet and content filters) and 11 Reddit posts,
the caps admit 20 + 20 news articles, the Reddit posts are appended
without a cap, and the returned results list has 51 items, exceeding
MAX_TOTAL_ARTICLES = 50. -/
theorem search_total_cap_counterexample :
    (searchPipeline (fun _ => 0) (fun _ => 0) (fun _ _ _ => "left")
        arts44 posts11 []).length = 51 ∧
    MAX_TOTAL_ARTICLES < 51 := by
  constructor
  · decide
  · decide

/-- Witness for C1: the cap bounds at the counterexample inputs, a left
candidate rejected at a full left cap, and a right candidate still
admitted at that point. -/
theorem search_caps_witness :
    (searchPipeline (fun _ => 0) (fun _ => 0) (fun _ _ _ => "left")
        arts44 posts11 []).countP isLeftNews ≤ MAX_LEFT_ARTICLES ∧
    newsLoop (fun _ => 0) (fun _ => 0) [leftArt] [] MAX_LEFT_ARTICLES 0 =
      newsLoop (fun _ => 0) (fun _ => 0) [] [] MAX_LEFT_ARTICLES 0 ∧
    newsLoop (fun _ => 0) (fun _ => 0) [rightArt] [] MAX_LEFT_ARTICLES 0 =
      newsLoop (fun _ => 0) (fun _ => 0) []
        [mkNewsOutput (fun _ => 0) (fun _ => 0) rightArt foxOutlet
          (strip_html_tags rightArt.content)] MAX_LEFT_ARTICLES 1 := by
  refine ⟨((search_caps (fun _ => 0) (fun _ => 0) (fun _ _ _ => "left")).1
      arts44 posts11 []).1, ?_, ?_⟩
  · exact (search_caps (fun _ => 0) (fun _ => 0) (fun _ _ _ => "left")).2.1
      leftArt [] [] 0 cnnOutlet (by decide) (by decide) (by decide) (by decide)
  · exact (search_caps (fun _ => 0) (fun _ => 0) (fun _ _ _ => "left")).2.2.1
      rightArt [] [] 0 foxOutlet (by decide) (by decide) (by decide) (by decide)
      (by decide)

/-! ## Claim C7 -/

/-- C7: a news candidate whose HTML-stripped content is shorter than
MIN_CONTENT_LENGTH is never admitted to the results (every news item in a
`/search` response carries stripped contents of length at least
MIN_CONTENT_LENGTH), and a candidate whose stripped length equals
MIN_CONTENT_LENGTH exactly is admitted, subject to the outlet match and
the caps. -/
theorem min_content_filter (compound : String → Rat) (toEpoch : String → Int)
    (classify : String → String → String → String) :
    (∀ (arts : List NewsArticle) (rposts bposts : List SocialPost)
        (item : ResultItem) (s : String),
      item ∈ searchPipeline compound toEpoch classify arts rposts bposts →
      newsContents item = some s → MIN_CONTENT_LENGTH ≤ s.length) ∧
    (∀ (a : NewsArticle) (rest : List NewsArticle) (outs : List NewsOutput)
        (l r : Nat) (o : Outlet), findOutlet a.url = some o →
      (strip_html_tags a.content).length = MIN_CONTENT_LENGTH →
      outs.length < MAX_TOTAL_ARTICLES →
      (o.bias = "left" → l < MAX_LEFT_ARTICLES →
        newsLoop compound toEpoch (a :: rest) outs l r =
          newsLoop compound toEpoch rest
            (outs ++ [mkNewsOutput compound toEpoch a o (strip_html_tags a.content)])
            (l + 1) r) ∧
      (¬ o.bias = "left" → r < MAX_RIGHT_ARTICLES →
        newsLoop compound toEpoch (a :: rest) outs l r =
          newsLoop compound toEpoch rest
            (outs ++ [mkNewsOutput compound toEpoch a o (strip_html_tags a.content)])
            l (r + 1))) := by
  constructor
  · intro arts rposts bposts item s hmem hsome
    have hnews := newsLoop_min_contents compound toEpoch arts [] 0 0 (by simp)
    simp only [searchPipeline, List.mem_append, List.mem_map] at hmem
    rcases hmem with (⟨o, ho, rfl⟩ | ⟨o, ho, rfl⟩) | ⟨o, ho, rfl⟩
    · simp only [newsContents, Option.some.injEq] at hsome
      rw [← hsome]
      exact hnews o ho
    · simp [newsContents] at hsome
    · simp [newsContents] at hsome
  · intro a rest outs l r o hfo heq hlen
    have hcl : ¬ (strip_html_tags a.content).length < MIN_CONTENT_LENGTH := by
      omega
    constructor
    · intro hbias hl
      exact newsLoop_admit_left compound toEpoch a rest outs l r o hfo hlen
        hcl hbias hl
    · intro hbias hr
      exact newsLoop_admit_right compound toEpoch a rest outs l r o hfo hlen
        hcl hbias hr

/-! ## Endpoint lemmas -/

theorem get_article_mapBias (f : String → String) (st : Store ArticleRecord)
    (s u : String) :
    get_article (mapBias f st) s u =
      (get_article st s u).map (fun a => { a with bias := f a.bias }) := by
  induction st with
  | nil => simp [mapBias, get_article]
  | cons e rest ih =>
    have ih2 := ih
    simp only [mapBias] at ih2 ⊢
    by_cases h : e.1 = (s, u) <;> simp [get_article, h, ih2]

theorem insightsLoop_mapBias
    (runScraper : String → String → Except String String)
    (st : Store ArticleRecord) (sid : String) (f : String → String) :
    ∀ (items : List (String × String)) (cache : Cache)
      (lefts rights : List ContextEntry),
      insightsLoop runScraper (mapBias f st) sid items cache lefts rights =
        insightsLoop runScraper st sid items cache lefts rights := by
  intro items
  induction items with
  | nil => intro cache lefts rights; rfl
  | cons it rest ih =>
    intro cache lefts rights
    obtain ⟨url, bias⟩ := it
    cases hga : get_article st sid url with
    | none =>
      simp only [insightsLoop, get_article_mapBias, hga, Option.map_none']
      exact ih cache lefts rights
    | some a =>
      simp only [insightsLoop, get_article_mapBias, hga, Option.map_some']
      split_ifs <;> exact ih _ _ _

/-! ## Claim C2 -/

/-- C2: the three source adapters are independent failure domains of the
`/search` fan-out — when one adapter fails, the search still completes and
returns the results built from the adapters that succeeded, the failed
adapter contributing an empty result list (adapter internals modelled from
the spec, as the adapter modules are not under src/). -/
theorem search_adapter_isolation (compound : String → Rat)
    (toEpoch : String → Int) (classify : String → String → String → String)
    (e : String) (nd : NewsData) (rp bp : List SocialPost) :
    searchRun compound toEpoch classify (.error e) (.ok rp) (.ok bp) =
      searchPipeline compound toEpoch classify [] rp bp ∧
    searchRun compound toEpoch classify (.ok nd) (.error e) (.ok bp) =
      searchPipeline compound toEpoch classify nd.articles [] bp ∧
    searchRun compound toEpoch classify (.ok nd) (.ok rp) (.error e) =
      searchPipeline compound toEpoch classify nd.articles rp [] ∧
    searchRun compound toEpoch classify (.error e) (.error e) (.error e) =
      searchPipeline compound toEpoch classify [] [] [] :=
  ⟨rfl, rfl, rfl, rfl⟩

/-! ## Claim C5 -/

/-- C5: with a pool of three credentials and the rotation index at 0, two
throttled attempts make the third attempt use the pool's third key (the
key trace is key1, key2, key3) and an all-throttled run fails after
exactly max_retries attempts — but the distinguishable exhaustion error is
produced only for HTTP 429 throttling.  When every attempt is throttled by
the provider's rate-limit error body instead, the call still stops after
exactly max_retries attempts, yet it surfaces the request-level
`API Error` exception, because `"rateLimit" in code.lower()` can never be
true (the needle has a capital L while the haystack is lowercased), so the
body branch falls to the generic handler which re-raises on the final
attempt.  This contradicts the code's own `Check if we hit rate limits ...
Try next key` comment: the claim captures the intent and the code has a
slip. -/
theorem search_news_rotation_eval :
    search_news threeKeys twoThrottledThenOk 3 0 =
      (.ok ⟨[]⟩, ["key1", "key2", "key3"]) ∧
    search_news threeKeys allThrottled429 3 0 =
      (.exhausted 3, ["key1", "key2", "key3"]) ∧
    search_news threeKeys allRateLimitedBody 3 0 =
      (.apiError "API Error: You have been rate limited",
        ["key1", "key2", "key3"]) ∧
    rateLimitHit "rateLimited" = false := by
  refine ⟨by decide, by decide, by decide, by decide⟩

/-! ## Claim C6 -/

/-- Counterexample for C6: a provider error body that is neither HTTP 429
nor rate-limited (code `parametersMissing`) on the first attempt does not
fail the call immediately — the generic exception handler retries with the
pool's second credential and the call succeeds on attempt 1, having used
two keys. -/
theorem search_news_nonthrottle_body_retries :
    search_news threeKeys badRequestThenOk 3 0 =
      (.ok ⟨[]⟩, ["key1", "key2"]) := by
  decide

/-- C6 (amended): only a non-throttling HTTP error status (an HTTPError
with status other than 429) makes search_news fail immediately without
trying any further credential.  A provider error body — whatever its code
— and any non-HTTP exception raised inside the try block are caught by the
generic handler and retried with the next credential, unless they occur on
the final attempt, in which case a non-rate-limited error body surfaces as
the request-level `API Error` exception. -/
theorem search_news_error_paths (keys : List String)
    (oracle : Nat → ApiResponse) (maxRetries n idx : Nat)
    (used : List String) :
    (∀ (status : Nat) (msg : String),
      oracle (maxRetries - (n + 1)) = .httpError status msg → ¬ status = 429 →
      searchNewsLoop keys oracle maxRetries (n + 1) idx used =
        (.httpFailure status msg, used ++ [keys.getD idx ""])) ∧
    (∀ (code message : String) (data : NewsData),
      oracle (maxRetries - (n + 1)) = .body "error" code message data →
      ¬ n = 0 →
      searchNewsLoop keys oracle maxRetries (n + 1) idx used =
        searchNewsLoop keys oracle maxRetries n ((idx + 1) % keys.length)
          (used ++ [keys.getD idx ""])) ∧
    (∀ (msg : String),
      oracle (maxRetries - (n + 1)) = .netError msg → ¬ n = 0 →
      searchNewsLoop keys oracle maxRetries (n + 1) idx used =
        searchNewsLoop keys oracle maxRetries n ((idx + 1) % keys.length)
          (used ++ [keys.getD idx ""])) ∧
    (∀ (code message : String) (data : NewsData),
      oracle (maxRetries - (n + 1)) = .body "error" code message data →
      n = 0 → rateLimitHit code = false →
      searchNewsLoop keys oracle maxRetries (n + 1) idx used =
        (.apiError ("API Error: " ++ message), used ++ [keys.getD idx ""])) := by
  refine ⟨?_, ?_, ?_, ?_⟩
  · intro status msg hor hst
    simp [searchNewsLoop, hor, hst]
  · intro code message data hor hn
    cases hrl : rateLimitHit code <;> simp [searchNewsLoop, hor, hn, hrl]
  · intro msg hor hn
    simp [searchNewsLoop, hor, hn]
  · intro code message data hor hn hrl
    subst hn
    simp [searchNewsLoop, hor, hrl]

/-- Witness for C6 (amended) at concrete inputs: an HTTP 500 on the first
of three attempts fails at once having used only the first key, and a
non-throttling error body on the first attempt retries with the second
key. -/
theorem search_news_error_paths_witness :
    searchNewsLoop threeKeys (fun _ => .httpError 500 "boom") 3 3 0 [] =
      (.httpFailure 500 "boom", ["key1"]) ∧
    searchNewsLoop threeKeys badRequestThenOk 3 3 0 [] =
      searchNewsLoop threeKeys badRequestThenOk 3 2 1 ["key1"] := by
  constructor
  · exact (search_news_error_paths threeKeys (fun _ => .httpError 500 "boom")
      3 2 0 []).1 500 "boom" rfl (by decide)
  · exact (search_news_error_paths threeKeys badRequestThenOk
      3 2 0 []).2.1 "parametersMissing" "bad request" ⟨[]⟩ (by decide) (by decide)

/-! ## Claim C8 -/

/-- C8: the sentiment scorer categorizes "positive" exactly when the
compound score is at least 0.05 and "negative" exactly when it is at most
−0.05 (both boundaries inclusive), "neutral" exactly on the open interval
between; it is a deterministic pure function of the text the source builds
from title and body (title, a space, then the body), and when the analyzer
maps the empty input's text to 0 the result is neutral with score 0. -/
theorem analyze_sentiment_thresholds (compound : String → Rat)
    (title content : String) :
    ((analyze_sentiment compound title content).2 =
      compound (title ++ " " ++ content)) ∧
    ((analyze_sentiment compound title content).1 = "positive" ↔
      mkRat 5 100 ≤ compound (title ++ " " ++ content)) ∧
    ((analyze_sentiment compound title content).1 = "negative" ↔
      compound (title ++ " " ++ content) ≤ mkRat (-5) 100) ∧
    ((analyze_sentiment compound title content).1 = "neutral" ↔
      (mkRat (-5) 100 < compound (title ++ " " ++ content) ∧
        compound (title ++ " " ++ content) < mkRat 5 100)) ∧
    (∀ (t2 c2 : String), title ++ " " ++ content = t2 ++ " " ++ c2 →
      analyze_sentiment compound t2 c2 =
        analyze_sentiment compound title content) ∧
    (compound " " = 0 → analyze_sentiment compound "" "" = ("neutral", 0)) := by
  have hlt : mkRat (-5) 100 < mkRat 5 100 := by decide
  refine ⟨rfl, ?_, ?_, ?_, ?_, ?_⟩
  · simp only [analyze_sentiment]
    split
    · next h => simpa using h
    · next h =>
      split
      · next h2 => simp; exact not_le.mp h
      · next h2 => simp; exact not_le.mp h
  · simp only [analyze_sentiment]
    split
    · next h =>
      constructor
      · intro hc; exact absurd hc (by decide)
      · intro hc; exact absurd h (not_le.mpr (lt_of_le_of_lt hc hlt))
    · next h =>
      split
      · next h2 => simpa using h2
      · next h2 => simp; exact not_le.mp h2
  · simp only [analyze_sentiment]
    split
    · next h =>
      constructor
      · intro hc; exact absurd hc (by decide)
      · intro hc; exact absurd h (not_le.mpr hc.2)
    · next h =>
      split
      · next h2 =>
        constructor
        · intro hc; exact absurd hc (by decide)
        · intro hc; exact absurd h2 (not_le.mpr hc.1)
      · next h2 =>
        constructor
        · intro _
          exact ⟨not_le.mp h2, not_le.mp h⟩
        · intro _
          rfl
  · intro t2 c2 heq
    simp only [analyze_sentiment, heq]
  · intro h0
    simp only [analyze_sentiment]
    have hsp : ("" : String) ++ " " ++ "" = " " := rfl
    rw [hsp, h0]
    decide

/-- Witness for C8: under an analyzer that scores every text 0, the empty
input yields neutral with score 0, and the determinism clause applies to a
concrete split of the same text. -/
theorem analyze_sentiment_thresholds_witness :
    analyze_sentiment (fun _ => 0) "" "" = ("neutral", 0) ∧
    analyze_sentiment (fun _ => 0) "a " "b" =
      analyze_sentiment (fun _ => 0) "a" " b" := by
  constructor
  · exact (analyze_sentiment_thresholds (fun _ => 0) "" "").2.2.2.2.2 rfl
  · exact (analyze_sentiment_thresholds (fun _ => 0) "a" " b").2.2.2.2.1
      "a " "b" (by decide)

/-- Witness for C7: a candidate with stripped content of length exactly
100 is admitted, and the admitted item in the response indeed carries
contents of length at least 100. -/
theorem min_content_filter_witness :
    MIN_CONTENT_LENGTH ≤ leftOut.contents.length ∧
    newsLoop (fun _ => 0) (fun _ => 0) [leftArt] [] 0 0 =
      newsLoop (fun _ => 0) (fun _ => 0) []
        [mkNewsOutput (fun _ => 0) (fun _ => 0) leftArt cnnOutlet
          (strip_html_tags leftArt.content)] 1 0 := by
  constructor
  · have hEq : searchPipeline (fun _ => 0) (fun _ => 0) (fun _ _ _ => "left")
        [leftArt] [] [] = [ResultItem.news leftOut] := by decide
    exact (min_content_filter (fun _ => 0) (fun _ => 0) (fun _ _ _ => "left")).1
      [leftArt] [] [] (ResultItem.news leftOut) leftOut.contents
      (hEq ▸ List.mem_singleton.mpr rfl) rfl
  · exact ((min_content_filter (fun _ => 0) (fun _ => 0) (fun _ _ _ => "left")).2
      leftArt [] [] 0 0 cnnOutlet (by decide) (by decide) (by decide)).1
      (by decide) (by decide)

/-! ## Claim C4 -/

/-- Counterexample for C4 as stated: an `/insights` request on an existing
session naming a url that is not stored in the session does not surface a
not-found condition — the unknown url is silently skipped and the request
proceeds to a success payload. -/
theorem insights_unknown_url_not_404 :
    get_article ([] : Store ArticleRecord) "sess1" "http://example.com/a" =
      none ∧
    (insightsEndpoint scraperFail genInsightsOk (.ok (["sess1"], [])) []
        "sess1" insightsReq).1 = .payload ⟨"L", "R", "C"⟩ ∧
    isNotFound (insightsEndpoint scraperFail genInsightsOk
        (.ok (["sess1"], [])) [] "sess1" insightsReq).1 = false := by
  refine ⟨rfl, ?_, ?_⟩ <;>
    simp [insightsEndpoint, insightsReq, insightsLoop, get_article,
      genInsightsOk, contextOf, isNotFound]

/-- C4 (amended): a `/summary` request surfaces the 404 condition both for
a nonexistent session and for a url not stored in the session; an
`/insights` request surfaces the 404 condition for a nonexistent session,
but a url not stored in the session is silently skipped by its article
loop rather than producing a not-found condition; a storage failure
surfaces as its own distinct outcome, and the 404 outcome is distinct from
both the generic error payload and the storage failure. -/
theorem notfound_conditions
    (runScraper : String → String → Except String String)
    (summarize : String → String → Except String String)
    (genInsights : String → String → Except String InsightsPayload)
    (sessions : List String) (st : Store ArticleRecord) (cache : Cache)
    (url sid : String) (items : List (String × String)) :
    (¬ sid ∈ sessions →
      summaryEndpoint runScraper summarize (.ok (sessions, st)) cache url sid =
        (.httpException 404
          "Session not found. Please search for content first.", cache)) ∧
    (sid ∈ sessions → get_article st sid url = none →
      summaryEndpoint runScraper summarize (.ok (sessions, st)) cache url sid =
        (.httpException 404
          "URL not found in this session. Please search for content first.",
          cache)) ∧
    (¬ sid ∈ sessions →
      insightsEndpoint runScraper genInsights (.ok (sessions, st)) cache sid
          items =
        (.httpException 404
          "Session not found. Please search for content first.", cache)) ∧
    (∀ (u2 b : String) (rest : List (String × String))
        (lefts rights : List ContextEntry),
      get_article st sid u2 = none →
      insightsLoop runScraper st sid ((u2, b) :: rest) cache lefts rights =
        insightsLoop runScraper st sid rest cache lefts rights) ∧
    (∀ e : String,
      summaryEndpoint runScraper summarize (.error e) cache url sid =
        (.storageFailure e, cache) ∧
      insightsEndpoint runScraper genInsights (.error e) cache sid items =
        (.storageFailure e, cache)) ∧
    (∀ (status : Nat) (detail msg : String),
      (EndpointResult.httpException (α := SummaryPayload) status detail ≠
        .errorPayload msg) ∧
      (EndpointResult.httpException (α := SummaryPayload) status detail ≠
        .storageFailure msg)) := by
  refine ⟨?_, ?_, ?_, ?_, ?_, ?_⟩
  · intro h
    simp [summaryEndpoint, h]
  · intro hs hga
    simp [summaryEndpoint, hs, hga]
  · intro h
    simp [insightsEndpoint, h]
  · intro u2 b rest lefts rights hga
    simp [insightsLoop, hga]
  · intro e
    exact ⟨rfl, rfl⟩
  · intro status detail msg
    constructor <;> simp

/-- Witness for C4 (amended) at concrete inputs: an unknown session 404s
on both endpoints, an unknown url 404s on `/summary`, and the insights
loop skips an unknown url. -/
theorem notfound_conditions_witness :
    summaryEndpoint scraperFail summarizeEcho (.ok (["sess1"], [])) []
        cnnUrl "nosuch" =
      (.httpException 404
        "Session not found. Please search for content first.", []) ∧
    summaryEndpoint scraperFail summarizeEcho (.ok (["sess1"], [])) []
        cnnUrl "sess1" =
      (.httpException 404
        "URL not found in this session. Please search for content first.",
        []) ∧
    insightsEndpoint scraperFail genInsightsOk (.ok (["sess1"], [])) []
        "nosuch" insightsReq =
      (.httpException 404
        "Session not found. Please search for content first.", []) ∧
    insightsLoop scraperFail ([] : Store ArticleRecord) "sess1" insightsReq
        [] [] [] = insightsLoop scraperFail [] "sess1" [] [] [] [] := by
  refine ⟨?_, ?_, ?_, ?_⟩
  · exact (notfound_conditions scraperFail summarizeEcho genInsightsOk
      ["sess1"] [] [] cnnUrl "nosuch" insightsReq).1 (by simp)
  · exact (notfound_conditions scraperFail summarizeEcho genInsightsOk
      ["sess1"] [] [] cnnUrl "sess1" insightsReq).2.1 (by simp) rfl
  · exact (notfound_conditions scraperFail summarizeEcho genInsightsOk
      ["sess1"] [] [] cnnUrl "nosuch" insightsReq).2.2.1 (by simp)
  · exact (notfound_conditions scraperFail summarizeEcho genInsightsOk
      ["sess1"] [] [] cnnUrl "sess1" insightsReq).2.2.2.1
      "http://example.com/a" "left" [] [] [] rfl

/-! ## Claim C9 -/

/-- C9: for a `/summary` request on a news-outlet url stored in an
existing session, a scraper failure does not fail the request: the
summary is generated from the short-form contents stored at search time
and a non-error summary payload is returned, provided the summarization
step itself succeeds; the content cache is left untouched. -/
theorem summary_scraper_fallback
    (runScraper : String → String → Except String String)
    (summarize : String → String → Except String String)
    (sessions : List String) (st : Store ArticleRecord) (cache : Cache)
    (url sid : String) (article : ArticleRecord) (o : Outlet) (e s : String)
    (hs : sid ∈ sessions)
    (ha : get_article st sid url = some article)
    (hsrc : article.source ∈ NEWS_SOURCES)
    (hc : cacheLookup cache url = none)
    (ho : findOutlet url = some o)
    (hf : runScraper o.scraper url = .error e)
    (hsum : summarize article.title article.contents = .ok s) :
    summaryEndpoint runScraper summarize (.ok (sessions, st)) cache url sid =
      (.payload ⟨url, article.title, article.source, s⟩, cache) := by
  simp [summaryEndpoint, hs, ha, fetchContent, hsrc, hc, scraperFor, ho, hf,
    hsum]

/-- Witness for C9: a failing scraper on a stored CNN url still produces a
success payload whose summary is built from the stored short contents. -/
theorem summary_scraper_fallback_witness :
    summaryEndpoint scraperFail summarizeEcho (.ok (["sess1"], cnnStore)) []
        cnnUrl "sess1" =
      (.payload ⟨cnnUrl, "Title", "CNN", "summary of short contents"⟩, []) := by
  exact summary_scraper_fallback scraperFail summarizeEcho ["sess1"] cnnStore
    [] cnnUrl "sess1" cnnRecord cnnOutlet "offline" "summary of short contents"
    (by simp) (by simp [cnnStore, get_article]) (by simp [cnnRecord, NEWS_SOURCES])
    rfl (by decide) rfl rfl

/-! ## Claim C10 -/

/-- C10: the `/insights` loop groups each requested article into the left
or right context according to the bias supplied in the request body, never
according to the bias stored with the article record (rewriting every
stored bias changes nothing), and an entry whose supplied bias is neither
"left" nor "right" contributes to neither context. -/
theorem insights_group_by_supplied_bias
    (runScraper : String → String → Except String String)
    (st : Store ArticleRecord) (sid : String) (cache : Cache)
    (lefts rights : List ContextEntry) :
    (∀ (f : String → String) (items : List (String × String)),
      insightsLoop runScraper (mapBias f st) sid items cache lefts rights =
        insightsLoop runScraper st sid items cache lefts rights) ∧
    (∀ (url : String) (rest : List (String × String)) (a : ArticleRecord),
      get_article st sid url = some a →
      (insightsLoop runScraper st sid ((url, "left") :: rest) cache lefts
          rights =
        insightsLoop runScraper st sid rest
          (fetchContent runScraper cache a url).2
          (lefts ++ [⟨a.title, a.source,
            (fetchContent runScraper cache a url).1.take 2000⟩]) rights) ∧
      (insightsLoop runScraper st sid ((url, "right") :: rest) cache lefts
          rights =
        insightsLoop runScraper st sid rest
          (fetchContent runScraper cache a url).2 lefts
          (rights ++ [⟨a.title, a.source,
            (fetchContent runScraper cache a url).1.take 2000⟩])) ∧
      (∀ bias : String, ¬ bias = "left" → ¬ bias = "right" →
        insightsLoop runScraper st sid ((url, bias) :: rest) cache lefts
            rights =
          insightsLoop runScraper st sid rest
            (fetchContent runScraper cache a url).2 lefts rights)) := by
  constructor
  · intro f items
    exact insightsLoop_mapBias runScraper st sid f items cache lefts rights
  · intro url rest a hga
    refine ⟨?_, ?_, ?_⟩
    · simp [insightsLoop, hga]
    · simp [insightsLoop, hga]
    · intro bias hbl hbr
      simp [insightsLoop, hga, hbl, hbr]

/-- Witness for C10: at a concrete store, rewriting every stored bias to
"right" leaves the grouping unchanged, a supplied "left" bias routes the
stored CNN article into the left list, and a supplied bias of "center"
routes it into neither. -/
theorem insights_group_by_supplied_bias_witness :
    insightsLoop scraperFail (mapBias (fun _ => "right") cnnStore) "sess1"
        insightsReq [] [] [] =
      insightsLoop scraperFail cnnStore "sess1" insightsReq [] [] [] ∧
    insightsLoop scraperFail cnnStore "sess1" [(cnnUrl, "left")] [] [] [] =
      insightsLoop scraperFail cnnStore "sess1" []
        (fetchContent scraperFail [] cnnRecord cnnUrl).2
        [⟨cnnRecord.title, cnnRecord.source,
          (fetchContent scraperFail [] cnnRecord cnnUrl).1.take 2000⟩] [] ∧
    insightsLoop scraperFail cnnStore "sess1" [(cnnUrl, "center")] [] [] [] =
      insightsLoop scraperFail cnnStore "sess1" []
        (fetchContent scraperFail [] cnnRecord cnnUrl).2 [] [] := by
  refine ⟨?_, ?_, ?_⟩
  · exact (insights_group_by_supplied_bias scraperFail cnnStore "sess1" []
      [] []).1 (fun _ => "right") insightsReq
  · have h := ((insights_group_by_supplied_bias scraperFail cnnStore "sess1"
      [] [] []).2 cnnUrl [] cnnRecord (by simp [cnnStore, get_article])).1
    simpa using h
  · exact ((insights_group_by_supplied_bias scraperFail cnnStore "sess1"
      [] [] []).2 cnnUrl [] cnnRecord (by simp [cnnStore, get_article])).2.2
      "center" (by decide) (by decide)

end Polarys
